import Mathlib

/-!
# Verification of the upload-server batch transfer engine

Shallow embedding of the core logic of the Arke upload client/server:
the retry/backoff policy (`dist/utils/retry.js` and the error taxonomy of
`dist/utils/errors.js`), the transfer primitives (`src/lib/simple-fetch.ts`,
`dist/lib/simple-fetch.js`, the multipart module), the batch orchestrators
(`src/uploader.ts` and the CLI `lib/uploader.ts`), and the session upload
route (`src/server/routes/upload.ts`).

Machine integers are modelled as `Nat`; millisecond delays as `ℚ` (JS
numbers; no overflow is relevant at these magnitudes).  Network effects are
modelled by oracles: a fetch outcome per attempt, an outcome per file, and
`Except` results for coordinating-service calls.
-/

/-! ## Error taxonomy (`dist/utils/errors.js`)

Each JS error class is a constructor.  `uploadError` carries the optional
`statusCode` and `retryAfter` fields that `dist/lib/simple-fetch.js` attaches
(the older 3-argument `UploadError` simply leaves them `none`); `fileName`
and `cause` are not inspected by any code modelled here and are omitted.
`genericError` models a plain JS error carrying an optional `code` property
(the axios-style transport codes checked by `isRetryableError`). -/

inductive JsError where
  | networkError (message : String)
  | workerAPIError (message : String) (statusCode : Option Nat)
  | uploadError (message : String) (statusCode : Option Nat) (retryAfter : Option Nat)
  | validationError (message : String)
  | genericError (message : String) (code : Option String)
deriving DecidableEq, Repr

/-- The `statusCode` property as read by `retry.js` (`error.statusCode`). -/
def JsError.statusCodeField : JsError → Option Nat
  | .workerAPIError _ sc => sc
  | .uploadError _ sc _ => sc
  | _ => none

/-- The `retryAfter` property as read by `retry.js` (`error.retryAfter`). -/
def JsError.retryAfterField : JsError → Option Nat
  | .uploadError _ _ ra => ra
  | _ => none

/-- `isRetryableError` from `dist/utils/errors.js`: `NetworkError` is
retryable; `WorkerAPIError` is retryable iff it has a status code ≥ 500;
a plain error is retryable iff its `code` is one of the four transport
codes; everything else (including `UploadError`) is not. -/
def isRetryableError : JsError → Bool
  | .networkError _ => true
  | .workerAPIError _ (some sc) => 500 ≤ sc
  | .workerAPIError _ none => false
  | .genericError _ (some c) =>
      c = "ECONNRESET" || c = "ETIMEDOUT" || c = "ENOTFOUND" || c = "ECONNREFUSED"
  | _ => false

/-! ## Backoff policy (`dist/utils/retry.js`, jitter variant) -/

structure RetryOptions where
  maxRetries : Nat
  initialDelay : ℚ
  maxDelay : ℚ
  jitter : Bool
  shouldRetry : JsError → Bool

/-- `DEFAULT_OPTIONS` of `dist/utils/retry.js`. -/
def defaultRetryOptions : RetryOptions :=
  { maxRetries := 3, initialDelay := 1000, maxDelay := 30000,
    jitter := true, shouldRetry := isRetryableError }

/-- The exponential branch of the delay computation:
`Math.min(opts.initialDelay * Math.pow(2, attempt), opts.maxDelay)`. -/
def backoffBaseDelay (o : RetryOptions) (attempt : Nat) : ℚ :=
  min (o.initialDelay * 2 ^ attempt) o.maxDelay

/-- The `Retry-After` hint the delay computation honours:
`if (error.statusCode === 429 && error.retryAfter)` — the `retryAfter`
field must be present and truthy (a stored `0` is falsy in JS). -/
def JsError.delayHint (e : JsError) : Option Nat :=
  if e.statusCodeField = some 429 then
    match e.retryAfterField with
    | some n => if n = 0 then none else some n
    | none => none
  else none

/-- The full base-delay computation of `retryWithBackoff`
(`dist/utils/retry.js` lines 32–41), before jitter. -/
def computeBaseDelay (e : JsError) (attempt : Nat) (o : RetryOptions) : ℚ :=
  match e.delayHint with
  | some n => min ((n : ℚ) * 1000) o.maxDelay
  | none => backoffBaseDelay o attempt

/-- Jitter (`retry.js` lines 42–46): `jitterAmount = delay * 0.25;
delay = delay + (Math.random() * jitterAmount * 2 - jitterAmount)` with
`r` standing for the draw of `Math.random()` in `[0, 1]`. -/
def applyJitter (d : ℚ) (r : ℚ) : ℚ :=
  d + (r * (d * (1 / 4)) * 2 - d * (1 / 4))

/-- Delay value before flooring, for a retry with no `Retry-After` hint. -/
def backoffDelayQ (o : RetryOptions) (attempt : Nat) (r : ℚ) : ℚ :=
  if o.jitter then applyJitter (backoffBaseDelay o attempt) r
  else backoffBaseDelay o attempt

/-- The millisecond count actually slept: `sleep(Math.floor(delay))`. -/
def backoffSleep (o : RetryOptions) (attempt : Nat) (r : ℚ) : ℤ :=
  ⌊backoffDelayQ o attempt r⌋

/-- The control flow of `retryWithBackoff` (`dist/utils/retry.js` lines
15–51).  `f i` is the outcome of the body on attempt `i` (0-based);
`remaining = maxRetries - i` retries are still allowed.  Returns the final
outcome together with the number of attempts actually made.  On an error:
if attempts are exhausted the error is thrown; otherwise if `shouldRetry`
rejects it the error is thrown; otherwise the loop continues. -/
def retryFrom (f : Nat → Except JsError α) (should : JsError → Bool) :
    Nat → Nat → Except JsError α × Nat
  | i, remaining =>
    match f i with
    | .ok v => (.ok v, i + 1)
    | .error e =>
      match remaining with
      | 0 => (.error e, i + 1)
      | r + 1 => if should e then retryFrom f should (i + 1) r else (.error e, i + 1)

/-- Run `retryWithBackoff fn opts`, counting attempts. -/
def retryExec (f : Nat → Except JsError α) (o : RetryOptions) : Except JsError α × Nat :=
  retryFrom f o.shouldRetry 0 o.maxRetries

/-! ## Transfer primitives -/

/-- An HTTP response as observed by the transfer primitives. -/
structure JsResponse where
  status : Nat
  statusText : String
  etag : Option String
  retryAfterHeader : Option Nat
deriving DecidableEq, Repr

/-- `response.ok`: status in the 2xx range. -/
def JsResponse.ok (r : JsResponse) : Bool :=
  decide (200 ≤ r.status ∧ r.status < 300)

/-- Outcome of one `fetch` call: either a response, or a transport-level
failure (connection refused, timeout, …) thrown by `fetch` itself. -/
inductive FetchOutcome where
  | response (r : JsResponse)
  | networkFailure (message : String)
deriving DecidableEq, Repr

/-- One attempt of `uploadSimple` (`src/lib/simple-fetch.ts` lines 17–41):
a non-ok status or a transport failure is wrapped in an `UploadError`
carrying neither `statusCode` nor `retryAfter`. -/
def uploadSimpleAttempt : FetchOutcome → Except JsError Unit
  | .response r =>
      if r.ok then .ok ()
      else .error (.uploadError
        ("Upload failed with status " ++ toString r.status ++ ": " ++ r.statusText)
        none none)
  | .networkFailure m => .error (.uploadError ("Upload failed: " ++ m) none none)

/-- `uploadSimple fileData url contentType { maxRetries }` — the retry wrapper
with the default predicate, as called from `src/lib/simple-fetch.ts`. -/
def uploadSimpleRun (fetches : Nat → FetchOutcome) (maxRetries : Nat) :
    Except JsError Unit × Nat :=
  retryExec (fun i => uploadSimpleAttempt (fetches i))
    { defaultRetryOptions with maxRetries := maxRetries }

/-- The `UploadError` that `dist/lib/simple-fetch.js` (lines 26–35) builds
from a non-ok response: `statusCode` is the response status, and
`retryAfter` is attached only when the status is exactly 429 and the
`Retry-After` header is present. -/
def distUploadErrorOf (r : JsResponse) : JsError :=
  .uploadError
    ("Upload failed with status " ++ toString r.status ++ ": " ++ r.statusText)
    (some r.status)
    (if r.status = 429 then r.retryAfterHeader else none)

/-- One attempt of the newer `uploadSimple` (`dist/lib/simple-fetch.js`). -/
def uploadSimpleAttemptD : FetchOutcome → Except JsError Unit
  | .response r => if r.ok then .ok () else .error (distUploadErrorOf r)
  | .networkFailure m => .error (.uploadError ("Upload failed: " ++ m) none none)

/-- `etag.replace(/"/g, '')`: strip every quote character. -/
def stripQuotes (s : String) : String :=
  ⟨s.data.filter (fun c => c ≠ '"')⟩

/-- One attempt of `uploadPart` (multipart module lines 55–92): a non-ok
status fails; a 2xx response without an `ETag` header also fails with an
`UploadError`; a 2xx response with an `ETag` succeeds with the quotes
stripped. -/
def uploadPartAttempt (f : FetchOutcome) (partNumber : Nat) : Except JsError String :=
  match f with
  | .response r =>
      if r.ok then
        match r.etag with
        | some e => .ok (stripQuotes e)
        | none => .error (.uploadError
            ("Part " ++ toString partNumber ++ " upload succeeded but no ETag returned")
            none none)
      else
        .error (.uploadError
          ("Part " ++ toString partNumber ++ " upload failed with status "
            ++ toString r.status ++ ": " ++ r.statusText)
          none none)
  | .networkFailure m =>
      .error (.uploadError ("Part " ++ toString partNumber ++ " upload failed: " ++ m)
        none none)

/-- `uploadPart partData url partNumber maxRetries` — the retry wrapper as
called from the multipart module (`retryWithBackoff(…, { maxRetries })`). -/
def uploadPartRun (fetches : Nat → FetchOutcome) (partNumber maxRetries : Nat) :
    Except JsError String × Nat :=
  retryExec (fun i => uploadPartAttempt (fetches i) partNumber)
    { defaultRetryOptions with maxRetries := maxRetries }

/-! ## Multipart coordinator (`uploadMultipart`, multipart module lines 18–50) -/

/-- `ArrayBuffer.prototype.slice(begin, end)` on byte content modelled as a
list: both indices clamp to the content and an inverted range is empty. -/
def jsSliceList (c : List α) (b e : Nat) : List α :=
  (c.drop b).take (e - b)

/-- `Math.ceil(totalSize / presignedUrls.length)` for natural inputs. -/
def partSizeOf (totalSize n : Nat) : Nat :=
  (totalSize + n - 1) / n

/-- The chunk list built by `uploadMultipart`: chunk `i` (0-based) is
`fileData.slice(i * partSize, Math.min(i * partSize + partSize, totalSize))`. -/
def multipartChunks (c : List α) (n : Nat) : List (List α) :=
  (List.range n).map (fun i =>
    jsSliceList c (i * partSizeOf c.length n)
      (min (i * partSizeOf c.length n + partSizeOf c.length n) c.length))

/-- One completed chunk: 1-based part number plus ETag completion token. -/
structure PartInfo where
  part_number : Nat
  etag : String
deriving DecidableEq, Repr

/-- The multiset of results the part tasks push: task `i` pushes
`{ part_number: i + 1, etag }` where `etag` is the token `uploadPart`
returned for chunk `i`. -/
def multipartParts (n : Nat) (etag : Nat → String) : List PartInfo :=
  (List.range n).map (fun i => ⟨i + 1, etag i⟩)

/-- Comparator order of `parts.sort((a, b) => a.part_number - b.part_number)`. -/
def partLE (a b : PartInfo) : Prop :=
  a.part_number ≤ b.part_number

instance : DecidableRel partLE := fun a b => Nat.decLe _ _

instance : IsTotal PartInfo partLE :=
  ⟨fun a b => Nat.le_total a.part_number b.part_number⟩

instance : IsTrans PartInfo partLE :=
  ⟨fun _ _ _ h h' => Nat.le_trans h h'⟩

/-- Strict version of the part-number order, used to show the sorted
result is unique. -/
def partLT (a b : PartInfo) : Prop :=
  a.part_number < b.part_number

instance : IsAntisymm PartInfo partLT :=
  ⟨fun a b h h' => absurd (Nat.lt_trans h h') (Nat.lt_irrefl _)⟩

/-- The final in-place sort of the parts array by part number. -/
def sortParts (l : List PartInfo) : List PartInfo :=
  l.insertionSort partLE

/-! ## Batch orchestrators -/

/-- One scanned file as the orchestrator sees it. -/
structure FileInfo where
  fileName : String
  size : Nat
deriving DecidableEq, Repr

/-- Calls made against the coordinating service (worker). -/
inductive WorkerCall where
  | initBatch
  | startFile (name : String)
  | completeFile (name : String)
  | finalizeBatch
deriving DecidableEq, Repr

/-- `files.reduce((sum, f) => sum + f.size, 0)`. -/
def sumSizes (l : List FileInfo) : Nat :=
  (l.map FileInfo.size).sum

/-- `MAX_BATCH_SIZE` from `lib/validation.ts` (100 GB). -/
def MAX_BATCH_SIZE : Nat := 100 * 1024 * 1024 * 1024

/-- Mutable aggregate state of the upload phase: the `filesUploaded` and
`bytesUploaded` counters, the `failedFiles` list, and the worker calls made
so far. -/
structure UploadPhaseState where
  filesUploaded : Nat
  bytesUploaded : Nat
  failedFiles : List (FileInfo × String)
  calls : List WorkerCall
deriving DecidableEq, Repr

def phaseInit : UploadPhaseState := ⟨0, 0, [], []⟩

/-- Settling one file task.  `outcome f = none` means the file's upload
(presign, transfer, complete) succeeded: `onFileComplete(file, file.size)`
runs, incrementing `filesUploaded` and adding `file.size` to
`bytesUploaded`.  `outcome f = some err` means it threw: the error is
recorded in `failedFiles` and no bytes are counted.  Every task begins with
`startFileUpload`; only a successful one reaches `completeFileUpload`. -/
def phaseStep (outcome : FileInfo → Option String) (st : UploadPhaseState)
    (f : FileInfo) : UploadPhaseState :=
  match outcome f with
  | none =>
      { st with
        filesUploaded := st.filesUploaded + 1
        bytesUploaded := st.bytesUploaded + f.size
        calls := st.calls ++ [.startFile f.fileName, .completeFile f.fileName] }
  | some err =>
      { st with
        failedFiles := st.failedFiles ++ [(f, err)]
        calls := st.calls ++ [.startFile f.fileName] }

/-- `uploadFilesWithConcurrency` (`src/uploader.ts` lines 231–265): workers
pop the shared queue, so the tasks settle in some order `order` (each file
exactly once); errors are caught per file and never propagate. -/
def runUploadPhase (outcome : FileInfo → Option String) (order : List FileInfo) :
    UploadPhaseState :=
  order.foldl (phaseStep outcome) phaseInit

/-- Result of `uploadBatch` (`durationMs`, a wall-clock reading, is not
modelled). -/
structure BatchResult where
  batchId : String
  filesUploaded : Nat
  bytesUploaded : Nat
deriving DecidableEq, Repr

/-- `ArkeUploader.uploadBatch` (`src/uploader.ts` lines 81–226), for a
configuration without custom prompts (the `customPrompts` validation branch
is skipped when the option is absent).  `files` is the scan result,
`order` the order in which the concurrent workers settle the file tasks,
`initResult` the coordinating service's response to `initBatch`, and
`finalizeResult` its response to `finalizeBatch`.  Steps, in source order:
empty-scan check, `validateBatchSize`, dry run, `initBatch`, upload phase,
all-failed check, `finalizeBatch`. -/
def uploadBatch (files : List FileInfo) (dryRun : Bool)
    (outcome : FileInfo → Option String) (order : List FileInfo)
    (initResult : Except JsError String) (finalizeResult : Except JsError Unit) :
    Except JsError BatchResult × List WorkerCall :=
  if files.length = 0 then
    (.error (.validationError "No files found to upload"), [])
  else if MAX_BATCH_SIZE < sumSizes files then
    (.error (.validationError "Total batch size exceeds maximum allowed size"), [])
  else if dryRun then
    (.ok ⟨"dry-run", files.length, sumSizes files⟩, [])
  else
    match initResult with
    | .error e => (.error e, [.initBatch])
    | .ok batchId =>
      let ph := runUploadPhase outcome order
      let calls := .initBatch :: ph.calls
      if ph.failedFiles.length = files.length then
        (.error (.validationError
          ("All " ++ toString files.length ++ " files failed to upload. First error: "
            ++ (match ph.failedFiles.head? with
                | some p => p.2
                | none => "Unknown"))), calls)
      else
        match finalizeResult with
        | .ok _ => (.ok ⟨batchId, ph.filesUploaded, ph.bytesUploaded⟩,
                    calls ++ [.finalizeBatch])
        | .error e => (.error e, calls ++ [.finalizeBatch])

/-- The message property of a JS error. -/
def JsError.message : JsError → String
  | .networkError m => m
  | .workerAPIError m _ => m
  | .uploadError m _ _ => m
  | .validationError m => m
  | .genericError m _ => m

/-- `Uploader.upload` of the CLI/server library (`lib/uploader.ts`,
steps 3–5; scanning and preprocessing yield `files`).  Its `uploadFiles`
sets `hasErrors` when any file task threw and then throws
`'Some files failed to upload'` before `finalizeBatch` is ever reached;
finalize runs only when every file succeeded. -/
def uploaderUpload (dryRun : Bool)
    (outcome : FileInfo → Option String) (order : List FileInfo)
    (initResult : Except JsError String) (finalizeResult : Except JsError Unit) :
    Except String Unit × List WorkerCall :=
  if dryRun then (.ok (), [])
  else
    match initResult with
    | .error e => (.error e.message, [.initBatch])
    | .ok _ =>
      let ph := runUploadPhase outcome order
      let calls := .initBatch :: ph.calls
      if ph.failedFiles.length ≠ 0 then
        (.error "Some files failed to upload", calls)
      else
        match finalizeResult with
        | .ok _ => (.ok (), calls ++ [.finalizeBatch])
        | .error e => (.error e.message, calls ++ [.finalizeBatch])

/-! ## Session upload route (`src/server/routes/upload.ts`) -/

/-- `SessionStatus` from `types/server.ts`. -/
inductive SessionStatus where
  | initialized
  | receiving
  | ready
  | processing
  | completed
  | failed
  | cancelled
deriving DecidableEq, Repr

/-- Decision of `POST /:sessionId/files` for an existing session. -/
inductive FilesDecision where
  | accepted
  | conflict
deriving DecidableEq, Repr

/-- The status gate of the file-upload route (lines 107–111): a 409
conflict for `processing` and `completed`, otherwise the files are
accepted and the session moves to `receiving`. -/
def postFilesResponse (s : SessionStatus) : FilesDecision :=
  if s = .processing ∨ s = .completed then .conflict else .accepted

/-! ## Helper lemmas -/

theorem take_min_length (l : List α) (p : Nat) : l.take (min p l.length) = l.take p := by
  cases Nat.le_total p l.length with
  | inl h => rw [Nat.min_eq_left h]
  | inr h => rw [Nat.min_eq_right h, List.take_of_length_le h,
      List.take_of_length_le (le_refl _)]

theorem jsSliceList_clamped (c : List α) (a p : Nat) :
    jsSliceList c a (min (a + p) c.length) = (c.drop a).take p := by
  unfold jsSliceList
  have h : min (a + p) c.length - a = min p (c.length - a) := by omega
  rw [h, ← List.length_drop, take_min_length]

theorem flatten_tiles (c : List α) (p : Nat) :
    ∀ n, (((List.range n).map (fun i => (c.drop (i * p)).take p)).flatten) = c.take (n * p) := by
  intro n
  induction n with
  | zero => simp
  | succ n ih =>
    rw [List.range_succ, List.map_append, List.flatten_append, ih]
    simp only [List.map_cons, List.map_nil, List.flatten_cons, List.flatten_nil,
      List.append_nil]
    rw [← List.take_add, Nat.succ_mul]

theorem le_mul_partSizeOf (len n : Nat) (hn : 1 ≤ n) : len ≤ n * partSizeOf len n := by
  have h1 := Nat.div_add_mod (len + n - 1) n
  have h2 := Nat.mod_lt (len + n - 1) (show 0 < n by omega)
  unfold partSizeOf
  omega

theorem multipartChunks_eq (c : List α) (n : Nat) :
    multipartChunks c n
      = (List.range n).map
          (fun i => (c.drop (i * partSizeOf c.length n)).take (partSizeOf c.length n)) := by
  unfold multipartChunks
  exact List.map_congr_left (fun i _ => jsSliceList_clamped c _ _)

theorem multipartChunks_flatten (c : List α) (n : Nat) (hn : 1 ≤ n) :
    (multipartChunks c n).flatten = c := by
  rw [multipartChunks_eq, flatten_tiles]
  exact List.take_of_length_le (le_mul_partSizeOf c.length n hn)

theorem multipartParts_map_pn (n : Nat) (etag : Nat → String) :
    (multipartParts n etag).map PartInfo.part_number = (List.range n).map (· + 1) := by
  simp [multipartParts, List.map_map]

theorem multipartParts_sorted_lt (n : Nat) (etag : Nat → String) :
    List.Sorted partLT (multipartParts n etag) := by
  show List.Pairwise partLT _
  rw [multipartParts, List.pairwise_map]
  exact (List.pairwise_lt_range n).imp (fun h => Nat.succ_lt_succ h)

theorem sortParts_of_perm (n : Nat) (etag : Nat → String) (completed : List PartInfo)
    (h : completed.Perm (multipartParts n etag)) :
    sortParts completed = multipartParts n etag := by
  have hperm : (sortParts completed).Perm (multipartParts n etag) :=
    (List.perm_insertionSort partLE completed).trans h
  have hsorted : List.Sorted partLE (sortParts completed) :=
    List.sorted_insertionSort partLE completed
  have hnodupkeys : ((sortParts completed).map PartInfo.part_number).Nodup := by
    refine (hperm.map PartInfo.part_number).nodup_iff.mpr ?_
    rw [multipartParts_map_pn]
    exact (List.nodup_range n).map (fun a b hab => by omega)
  have hpairne :
      (sortParts completed).Pairwise (fun a b => a.part_number ≠ b.part_number) :=
    List.pairwise_map.mp hnodupkeys
  have hstrict : List.Sorted partLT (sortParts completed) :=
    (hsorted.and hpairne).imp (fun hab => Nat.lt_of_le_of_ne hab.1 hab.2)
  exact List.eq_of_perm_of_sorted hperm hstrict (multipartParts_sorted_lt n etag)

theorem foldl_phase_bytes (outcome : FileInfo → Option String) (order : List FileInfo) :
    ∀ st : UploadPhaseState,
      (order.foldl (phaseStep outcome) st).bytesUploaded
        = st.bytesUploaded + sumSizes (order.filter (fun f => (outcome f).isNone)) := by
  induction order with
  | nil => intro st; simp [sumSizes]
  | cons f t ih =>
    intro st
    simp only [List.foldl_cons, List.filter_cons]
    cases h : outcome f with
    | none =>
      rw [ih]
      simp [phaseStep, h, sumSizes]
      omega
    | some e =>
      rw [ih]
      simp [phaseStep, h]

theorem foldl_phase_failed (outcome : FileInfo → Option String) (order : List FileInfo) :
    ∀ st : UploadPhaseState,
      (order.foldl (phaseStep outcome) st).failedFiles.map Prod.fst
        = st.failedFiles.map Prod.fst ++ order.filter (fun f => (outcome f).isSome) := by
  induction order with
  | nil => intro st; simp
  | cons f t ih =>
    intro st
    simp only [List.foldl_cons, List.filter_cons]
    cases h : outcome f with
    | none =>
      rw [ih]
      simp [phaseStep, h]
    | some e =>
      rw [ih]
      simp [phaseStep, h]

theorem foldl_phase_no_finalize (outcome : FileInfo → Option String)
    (order : List FileInfo) :
    ∀ st : UploadPhaseState, WorkerCall.finalizeBatch ∉ st.calls →
      WorkerCall.finalizeBatch ∉ (order.foldl (phaseStep outcome) st).calls := by
  induction order with
  | nil => intro st h; simpa using h
  | cons f t ih =>
    intro st h
    simp only [List.foldl_cons]
    cases hf : outcome f with
    | none =>
      refine ih _ ?_
      simp [phaseStep, hf]
      exact h
    | some e =>
      refine ih _ ?_
      simp [phaseStep, hf]
      exact h

/-! ## Claim theorems -/

/-- Claim C2 (evaluation at the failing input): a simple transfer whose PUT
receives HTTP 500 on every attempt, with `maxRetries = 3`, fails with an
`UploadError` after exactly one attempt — no retry happens, because
`uploadSimple` wraps every failure in an `UploadError` and the default
`isRetryableError` predicate classifies `UploadError` as non-retryable.
The same holds for a transport-level failure (connection refused), which
the claim says is always retried. -/
theorem c2_no_retry_evaluation :
    uploadSimpleRun (fun _ => .response ⟨500, "Internal Server Error", none, none⟩) 3
      = (.error (.uploadError "Upload failed with status 500: Internal Server Error"
          none none), 1)
    ∧ uploadSimpleRun (fun _ => .networkFailure "connection refused") 3
      = (.error (.uploadError "Upload failed: connection refused" none none), 1)
    ∧ isRetryableError (.uploadError "Upload failed: connection refused" none none)
        = false := by
  refine ⟨?_, ?_, ?_⟩ <;> rfl

/-- Claim C8 (counterexample): a session whose status is `failed` (or
`cancelled`) is not in {initialized, receiving, ready}, yet the file-upload
route accepts new file data for it — the gate only refuses `processing`
and `completed`, so acceptance is not limited to the three statuses the
claim names. -/
theorem c8_failed_status_counterexample :
    postFilesResponse .failed = .accepted ∧ postFilesResponse .cancelled = .accepted := by
  exact ⟨rfl, rfl⟩

/-- Claim C8 (amended): a request to add file data to an existing session
is refused with a 409 conflict exactly when the session's status is
`processing` or `completed`; every other status — `initialized`,
`receiving`, `ready`, and also the terminal `failed` and `cancelled` —
accepts the data. -/
theorem c8_files_gate (s : SessionStatus) :
    (postFilesResponse s = .accepted ↔ (s ≠ .processing ∧ s ≠ .completed))
    ∧ (postFilesResponse s = .conflict ↔ (s = .processing ∨ s = .completed)) := by
  cases s <;> decide

/-- Claim C9: when the scan yields an empty file list, `uploadBatch` throws
a `ValidationError` ("No files found to upload") and no coordinating-service
call (init, per-file, or finalize) is ever made. -/
theorem c9_empty_scan (dryRun : Bool) (outcome : FileInfo → Option String)
    (order : List FileInfo) (initResult : Except JsError String)
    (finalizeResult : Except JsError Unit) :
    uploadBatch [] dryRun outcome order initResult finalizeResult
      = (.error (.validationError "No files found to upload"), []) := rfl

/-- Claim C10: with `dryRun` set, a non-empty scan that passes the batch
size validation returns a `BatchResult` with batchId `"dry-run"`,
`filesUploaded` the number of scanned files and `bytesUploaded` the sum of
their sizes, and makes no coordinating-service or storage call at all. -/
theorem c10_dry_run (files : List FileInfo) (outcome : FileInfo → Option String)
    (order : List FileInfo) (initResult : Except JsError String)
    (finalizeResult : Except JsError Unit)
    (hne : files ≠ []) (hsize : sumSizes files ≤ MAX_BATCH_SIZE) :
    uploadBatch files true outcome order initResult finalizeResult
      = (.ok ⟨"dry-run", files.length, sumSizes files⟩, []) := by
  unfold uploadBatch
  rw [if_neg (by simpa [List.length_eq_zero] using hne),
    if_neg (Nat.not_lt.mpr hsize), if_pos rfl]

/-- Claim C10 witness: a concrete one-file dry run. -/
theorem c10_dry_run_witness :
    uploadBatch [⟨"a.txt", 2048⟩] true (fun _ => none) [] (.ok "b") (.ok ())
      = (.ok ⟨"dry-run", 1, 2048⟩, []) :=
  c10_dry_run [⟨"a.txt", 2048⟩] (fun _ => none) [] (.ok "b") (.ok ())
    (by decide) (by decide)

/-- Claim C3 (counterexample): for content of 5 bytes and 4 presigned URLs
the computed part size is `ceil(5/4) = 2`, but the chunks produced have
sizes `[2, 2, 1, 0]` — the third chunk is shorter than the part size even
though it is not the last one, so the split is not "N chunks of size
ceil(S/N) each with only the last possibly shorter". -/
theorem c3_chunk_size_counterexample :
    partSizeOf (([0, 1, 2, 3, 4] : List Nat).length) 4 = 2
    ∧ (multipartChunks ([0, 1, 2, 3, 4] : List Nat) 4).map List.length = [2, 2, 1, 0] := by
  exact ⟨rfl, rfl⟩

/-- Claim C3 (amended): for content `c` and `n ≥ 1` URLs, `uploadMultipart`
produces exactly `n` contiguous chunks, chunk `i` covering bytes
`[i*p, min((i+1)*p, S))` with `p = ceil(S/n)` — so every chunk has size
`min(p, S - i*p)`: all chunks have size `p` except possibly trailing ones,
which may be shorter or empty; their concatenation is exactly the original
content.  Whatever order the part transfers complete in (any permutation
of the part results), the returned list, sorted by part number, has part
numbers forming exactly the contiguous ascending sequence `1..n`. -/
theorem c3_multipart_chunks_and_order (c : List Nat) (n : Nat) (hn : 1 ≤ n)
    (etag : Nat → String) (completed : List PartInfo)
    (hperm : completed.Perm (multipartParts n etag)) :
    (multipartChunks c n).length = n
    ∧ (multipartChunks c n).flatten = c
    ∧ (∀ i, i < n →
        ((multipartChunks c n)[i]?.map List.length)
          = some (min (partSizeOf c.length n) (c.length - i * partSizeOf c.length n)))
    ∧ (sortParts completed).map PartInfo.part_number = (List.range n).map (· + 1) := by
  refine ⟨by simp [multipartChunks], multipartChunks_flatten c n hn, ?_, ?_⟩
  · intro i hi
    rw [multipartChunks_eq, List.getElem?_map, List.getElem?_range hi]
    simp [List.length_take, List.length_drop]
  · rw [sortParts_of_perm n etag completed hperm, multipartParts_map_pn]

/-- Claim C3 witness: three bytes over two URLs, parts completing in
reverse order. -/
theorem c3_multipart_witness :
    (multipartChunks ([9, 8, 7] : List Nat) 2).flatten = [9, 8, 7]
    ∧ (sortParts [⟨2, "e"⟩, ⟨1, "e"⟩]).map PartInfo.part_number
        = (List.range 2).map (· + 1) := by
  have h := c3_multipart_chunks_and_order [9, 8, 7] 2 (by decide) (fun _ => "e")
    [⟨2, "e"⟩, ⟨1, "e"⟩] (by decide)
  exact ⟨h.2.1, h.2.2.2⟩

/-- Claim C6: a part PUT answered by a 2xx response succeeds with the
ETag's quote characters stripped when the `ETag` header is present, and
fails with an `UploadError` (after a single attempt — the error is not
retryable) when the storage backend accepted the PUT but omitted the ETag. -/
theorem c6_part_etag (fetches : Nat → FetchOutcome) (r : JsResponse)
    (partNumber maxRetries : Nat)
    (h0 : fetches 0 = .response r) (h2xx : 200 ≤ r.status ∧ r.status < 300) :
    (∀ t, r.etag = some t →
      uploadPartRun fetches partNumber maxRetries = (.ok (stripQuotes t), 1))
    ∧ (r.etag = none →
      uploadPartRun fetches partNumber maxRetries
        = (.error (.uploadError
            ("Part " ++ toString partNumber ++ " upload succeeded but no ETag returned")
            none none), 1)) := by
  have hok : r.ok = true := decide_eq_true h2xx
  constructor
  · intro t ht
    have hatt : uploadPartAttempt (fetches 0) partNumber = .ok (stripQuotes t) := by
      simp [uploadPartAttempt, h0, hok, ht]
    unfold uploadPartRun retryExec
    simp [retryFrom, hatt]
  · intro ht
    have hatt : uploadPartAttempt (fetches 0) partNumber
        = .error (.uploadError
            ("Part " ++ toString partNumber ++ " upload succeeded but no ETag returned")
            none none) := by
      simp [uploadPartAttempt, h0, hok, ht]
    cases maxRetries with
    | zero =>
      unfold uploadPartRun retryExec
      simp [retryFrom, hatt]
    | succ m =>
      unfold uploadPartRun retryExec
      simp [retryFrom, hatt, defaultRetryOptions, isRetryableError]

/-- Claim C6 witness: a 2xx response with a quoted ETag, and a 2xx response
with no ETag, at concrete inputs. -/
theorem c6_part_etag_witness :
    uploadPartRun (fun _ => .response ⟨200, "OK", some "\"abc\"", none⟩) 1 3
      = (.ok "abc", 1)
    ∧ uploadPartRun (fun _ => .response ⟨200, "OK", none, none⟩) 2 3
      = (.error (.uploadError "Part 2 upload succeeded but no ETag returned" none none),
         1) := by
  constructor
  · exact (c6_part_etag (fun _ => .response ⟨200, "OK", some "\"abc\"", none⟩)
      ⟨200, "OK", some "\"abc\"", none⟩ 1 3 rfl (by decide)).1 "\"abc\"" rfl
  · exact (c6_part_etag (fun _ => .response ⟨200, "OK", none, none⟩)
      ⟨200, "OK", none, none⟩ 2 3 rfl (by decide)).2 rfl

/-- Claim C7: throughout the upload phase and once it settles (for every
settlement order of the file tasks, hence for every prefix of the event
sequence), the `bytesUploaded` counter equals the sum of the sizes of the
files whose upload fully completed — failed files contribute nothing; in
particular a batch of three 2 KB files that all complete ends with
`bytesUploaded = 6144`. -/
theorem c7_bytes_uploaded :
    (∀ (outcome : FileInfo → Option String) (order : List FileInfo),
      (runUploadPhase outcome order).bytesUploaded
        = sumSizes (order.filter (fun f => (outcome f).isNone)))
    ∧ (uploadBatch [⟨"a", 2048⟩, ⟨"b", 2048⟩, ⟨"c", 2048⟩] false (fun _ => none)
        [⟨"a", 2048⟩, ⟨"b", 2048⟩, ⟨"c", 2048⟩] (.ok "batch-1") (.ok ())).1
      = .ok ⟨"batch-1", 3, 6144⟩ := by
  constructor
  · intro outcome order
    have h := foldl_phase_bytes outcome order phaseInit
    simpa [runUploadPhase, phaseInit] using h
  · rfl

/-- Claim C4 (counterexample): the delay computation honours a
`Retry-After` hint only on a 429 status and only when it is non-zero.  A
503 response carrying `Retry-After: 5` — which carries a server-supplied
retry-after hint of 5 seconds — still gets the exponential delay (1000 ms
at attempt 0 with the default options), not `min(5 * 1000, maxDelay) =
5000`; likewise a 429 with `Retry-After: 0` gets 1000 ms, not 0. -/
theorem c4_hint_counterexample :
    computeBaseDelay (distUploadErrorOf ⟨503, "Service Unavailable", none, some 5⟩) 0
        defaultRetryOptions = 1000
    ∧ min ((5 : ℚ) * 1000) defaultRetryOptions.maxDelay = 5000
    ∧ (1000 : ℚ) ≠ 5000
    ∧ computeBaseDelay (distUploadErrorOf ⟨429, "Too Many Requests", none, some 0⟩) 0
        defaultRetryOptions = 1000
    ∧ min ((0 : ℚ) * 1000) defaultRetryOptions.maxDelay = 0
    ∧ (1000 : ℚ) ≠ 0 := by
  refine ⟨?_, ?_, ?_, ?_, ?_, ?_⟩ <;>
    norm_num [computeBaseDelay, distUploadErrorOf, JsError.delayHint,
      JsError.statusCodeField, JsError.retryAfterField, backoffBaseDelay,
      defaultRetryOptions]

/-- Claim C4 (amended): for the error a failed storage PUT produces, the
computed base delay before the next attempt is `min(N * 1000, maxDelay)`
when the response was a 429 carrying a `Retry-After` hint of `N ≥ 1`
seconds, and `min(initialDelay * 2^a, maxDelay)` otherwise (no hint, a
hint on a non-429 status, or a zero hint). -/
theorem c4_retry_delay (a : Nat) (o : RetryOptions) (r : JsResponse) (n : Nat) :
    (r.status = 429 → r.retryAfterHeader = some n → 1 ≤ n →
      computeBaseDelay (distUploadErrorOf r) a o = min ((n : ℚ) * 1000) o.maxDelay)
    ∧ (r.status ≠ 429 ∨ r.retryAfterHeader = none →
      computeBaseDelay (distUploadErrorOf r) a o
        = min (o.initialDelay * 2 ^ a) o.maxDelay)
    ∧ (r.retryAfterHeader = some 0 →
      computeBaseDelay (distUploadErrorOf r) a o
        = min (o.initialDelay * 2 ^ a) o.maxDelay) := by
  refine ⟨?_, ?_, ?_⟩
  · intro h429 hra hn
    have hn0 : n ≠ 0 := by omega
    simp [computeBaseDelay, distUploadErrorOf, JsError.delayHint,
      JsError.statusCodeField, JsError.retryAfterField, h429, hra, hn0]
  · intro h
    rcases h with h | h
    · simp [computeBaseDelay, distUploadErrorOf, JsError.delayHint,
        JsError.statusCodeField, JsError.retryAfterField, h, backoffBaseDelay]
    · by_cases h429 : r.status = 429
      · simp [computeBaseDelay, distUploadErrorOf, JsError.delayHint,
          JsError.statusCodeField, JsError.retryAfterField, h429, h, backoffBaseDelay]
      · simp [computeBaseDelay, distUploadErrorOf, JsError.delayHint,
          JsError.statusCodeField, JsError.retryAfterField, h429, backoffBaseDelay]
  · intro h0
    by_cases h429 : r.status = 429
    · simp [computeBaseDelay, distUploadErrorOf, JsError.delayHint,
        JsError.statusCodeField, JsError.retryAfterField, h429, h0, backoffBaseDelay]
    · simp [computeBaseDelay, distUploadErrorOf, JsError.delayHint,
        JsError.statusCodeField, JsError.retryAfterField, h429, backoffBaseDelay]

/-- Claim C4 witness: a 429 with `Retry-After: 2` yields a base delay of
`min(2000, maxDelay) = 2000` regardless of the default initial delay; a
plain 500 at attempt 1 yields the exponential delay; a 429 with
`Retry-After: 0` falls back to the exponential delay. -/
theorem c4_retry_delay_witness :
    computeBaseDelay (distUploadErrorOf ⟨429, "Too Many Requests", none, some 2⟩) 0
        defaultRetryOptions = min ((2 : ℚ) * 1000) defaultRetryOptions.maxDelay
    ∧ computeBaseDelay (distUploadErrorOf ⟨500, "Internal Server Error", none, none⟩) 1
        defaultRetryOptions
        = min (defaultRetryOptions.initialDelay * 2 ^ 1) defaultRetryOptions.maxDelay
    ∧ computeBaseDelay (distUploadErrorOf ⟨429, "Too Many Requests", none, some 0⟩) 0
        defaultRetryOptions
        = min (defaultRetryOptions.initialDelay * 2 ^ 0) defaultRetryOptions.maxDelay := by
  refine ⟨?_, ?_, ?_⟩
  · exact (c4_retry_delay 0 defaultRetryOptions ⟨429, "Too Many Requests", none, some 2⟩
      2).1 rfl rfl (by norm_num)
  · exact (c4_retry_delay 1 defaultRetryOptions
      ⟨500, "Internal Server Error", none, none⟩ 0).2.1 (Or.inr rfl)
  · exact (c4_retry_delay 0 defaultRetryOptions ⟨429, "Too Many Requests", none, some 0⟩
      0).2.2 rfl

/-- Claim C5: for any options with nonnegative initial and maximum delay,
any jitter setting, and any jitter draws in `[0, 1]` (i.e. randomization
within ±25% of the computed value), the slept delay sequence is
monotonically non-decreasing as long as the next base delay has not
reached the `maxDelay` ceiling, and no slept delay ever exceeds
`maxDelay * 1.25`. -/
theorem c5_backoff_monotone_bounded (o : RetryOptions) (a : Nat) (r r' : ℚ)
    (hi : 0 ≤ o.initialDelay) (hm : 0 ≤ o.maxDelay)
    (hr0 : 0 ≤ r) (hr1 : r ≤ 1) (hr0' : 0 ≤ r') (hr1' : r' ≤ 1) :
    (backoffBaseDelay o (a + 1) < o.maxDelay →
      backoffSleep o a r ≤ backoffSleep o (a + 1) r')
    ∧ (backoffSleep o a r : ℚ) ≤ o.maxDelay * (5 / 4) := by
  have h20 : (0 : ℚ) ≤ 2 := by norm_num
  have hbase0 : (0 : ℚ) ≤ backoffBaseDelay o a :=
    le_min (mul_nonneg hi (pow_nonneg h20 a)) hm
  have hbaseM : backoffBaseDelay o a ≤ o.maxDelay := min_le_right _ _
  constructor
  · intro hlt
    have hx : o.initialDelay * 2 ^ (a + 1) < o.maxDelay := by
      rcases lt_or_le (o.initialDelay * 2 ^ (a + 1)) o.maxDelay with h | h
      · exact h
      · exfalso
        unfold backoffBaseDelay at hlt
        rw [min_eq_right h] at hlt
        exact lt_irrefl _ hlt
    have hxa : o.initialDelay * 2 ^ a ≤ o.initialDelay * 2 ^ (a + 1) :=
      mul_le_mul_of_nonneg_left
        (pow_le_pow_right₀ (by norm_num) (Nat.le_succ a)) hi
    have hba : backoffBaseDelay o a = o.initialDelay * 2 ^ a :=
      min_eq_left (le_trans hxa (le_of_lt hx))
    have hba1 : backoffBaseDelay o (a + 1) = o.initialDelay * 2 ^ (a + 1) :=
      min_eq_left (le_of_lt hx)
    have he0 : (0 : ℚ) ≤ o.initialDelay * 2 ^ a :=
      mul_nonneg hi (pow_nonneg h20 a)
    have h2e : o.initialDelay * 2 ^ (a + 1) = 2 * (o.initialDelay * 2 ^ a) := by
      rw [pow_succ]; ring
    have hdq : backoffDelayQ o a r ≤ backoffDelayQ o (a + 1) r' := by
      unfold backoffDelayQ
      by_cases hj : o.jitter
      · rw [if_pos hj, if_pos hj, hba, hba1, h2e]
        unfold applyJitter
        nlinarith [mul_le_mul_of_nonneg_right hr1 he0, mul_nonneg hr0' he0,
          mul_nonneg hr0 he0]
      · rw [if_neg hj, if_neg hj, hba, hba1, h2e]
        linarith
    exact Int.floor_le_floor hdq
  · have hq : backoffDelayQ o a r ≤ o.maxDelay * (5 / 4) := by
      unfold backoffDelayQ
      by_cases hj : o.jitter
      · rw [if_pos hj]
        unfold applyJitter
        nlinarith [mul_le_mul_of_nonneg_right hr1 hbase0, mul_nonneg hr0 hbase0]
      · rw [if_neg hj]
        linarith
    exact le_trans (Int.floor_le _) hq

/-- Claim C5 witness: with the default options, the delay after attempt 0
(jitter drawn at the top of the range) does not exceed the delay after
attempt 1 (jitter drawn at the bottom), and stays below `maxDelay * 1.25`. -/
theorem c5_backoff_witness :
    backoffBaseDelay defaultRetryOptions 1 < defaultRetryOptions.maxDelay
    ∧ backoffSleep defaultRetryOptions 0 1 ≤ backoffSleep defaultRetryOptions 1 0
    ∧ (backoffSleep defaultRetryOptions 0 1 : ℚ)
        ≤ defaultRetryOptions.maxDelay * (5 / 4) := by
  have hlt : backoffBaseDelay defaultRetryOptions 1 < defaultRetryOptions.maxDelay := by
    norm_num [backoffBaseDelay, defaultRetryOptions]
  have h := c5_backoff_monotone_bounded defaultRetryOptions 0 1 0
    (by norm_num [defaultRetryOptions]) (by norm_num [defaultRetryOptions])
    (by norm_num) (by norm_num) (by norm_num) (by norm_num)
  exact ⟨hlt, h.1 hlt, h.2⟩

/-- Claim C1 (counterexample): the CLI/server orchestrator
(`lib/uploader.ts`, used by the upload-server's processing route) does not
finalize on partial success: with two files of which exactly one succeeds,
its upload run fails with "Some files failed to upload" and `finalizeBatch`
is never called — contradicting "if at least one file succeeds, finalize
is called and the batch terminates successfully".  Also, even for the SDK
`uploadBatch`, a successful upload phase ends in failure when the finalize
call itself fails. -/
theorem c1_partial_failure_counterexample :
    (uploaderUpload false
        (fun f => if f.fileName = "b.txt" then some "network error" else none)
        [⟨"a.txt", 2048⟩, ⟨"b.txt", 2048⟩] (.ok "batch-1") (.ok ())).1
      = .error "Some files failed to upload"
    ∧ WorkerCall.finalizeBatch ∉
        (uploaderUpload false
          (fun f => if f.fileName = "b.txt" then some "network error" else none)
          [⟨"a.txt", 2048⟩, ⟨"b.txt", 2048⟩] (.ok "batch-1") (.ok ())).2
    ∧ (uploadBatch [⟨"a.txt", 2048⟩] false (fun _ => none) [⟨"a.txt", 2048⟩]
        (.ok "batch-1") (.error (.networkError "finalize failed"))).1
      = .error (.networkError "finalize failed") := by
  refine ⟨rfl, by decide, rfl⟩

/-- Claim C1 (amended): for the SDK batch orchestrator (`uploadBatch` in
`src/uploader.ts`), over any settlement order of the file tasks: if every
file's upload fails, the batch throws a `ValidationError` and the finalize
call is never made; if at least one file succeeds, `finalizeBatch` is
called, the failed files are exactly the collected warning list, and —
provided the finalize call itself succeeds — the batch terminates
successfully.  The CLI/server orchestrator (`lib/uploader.ts`) instead
fails the whole run without calling finalize whenever at least one file
failed. -/
theorem c1_batch_outcome (files order : List FileInfo)
    (outcome : FileInfo → Option String) (initId : String)
    (finalizeResult : Except JsError Unit)
    (hperm : order.Perm files) (hne : files ≠ [])
    (hsize : sumSizes files ≤ MAX_BATCH_SIZE) :
    ((∀ f ∈ files, (outcome f).isSome) →
      (∃ msg, (uploadBatch files false outcome order (.ok initId) finalizeResult).1
          = .error (.validationError msg))
      ∧ WorkerCall.finalizeBatch
          ∉ (uploadBatch files false outcome order (.ok initId) finalizeResult).2)
    ∧ ((∃ f ∈ files, (outcome f).isNone) →
      WorkerCall.finalizeBatch
          ∈ (uploadBatch files false outcome order (.ok initId) finalizeResult).2
      ∧ (runUploadPhase outcome order).failedFiles.map Prod.fst
          = order.filter (fun f => (outcome f).isSome)
      ∧ (finalizeResult = .ok () →
          (uploadBatch files false outcome order (.ok initId) finalizeResult).1
            = .ok ⟨initId, (runUploadPhase outcome order).filesUploaded,
                   (runUploadPhase outcome order).bytesUploaded⟩))
    ∧ ((∃ f ∈ order, (outcome f).isSome) →
      (uploaderUpload false outcome order (.ok initId) finalizeResult).1
          = .error "Some files failed to upload"
      ∧ WorkerCall.finalizeBatch
          ∉ (uploaderUpload false outcome order (.ok initId) finalizeResult).2) := by
  have hlen0 : ¬ files.length = 0 := by
    simpa [List.length_eq_zero] using hne
  have hnlt : ¬ MAX_BATCH_SIZE < sumSizes files := Nat.not_lt.mpr hsize
  have hfailed : (runUploadPhase outcome order).failedFiles.map Prod.fst
      = order.filter (fun f => (outcome f).isSome) := by
    simpa [runUploadPhase, phaseInit] using foldl_phase_failed outcome order phaseInit
  have hflen : (runUploadPhase outcome order).failedFiles.length
      = (order.filter (fun f => (outcome f).isSome)).length := by
    rw [← hfailed, List.length_map]
  have hnofin : WorkerCall.finalizeBatch ∉ (runUploadPhase outcome order).calls :=
    foldl_phase_no_finalize outcome order phaseInit (by simp [phaseInit])
  refine ⟨?_, ?_, ?_⟩
  · intro hall
    have hfiltall : order.filter (fun f => (outcome f).isSome) = order :=
      List.filter_eq_self.mpr (fun f hf => hall f (hperm.subset hf))
    have hall' : (runUploadPhase outcome order).failedFiles.length = files.length := by
      rw [hflen, hfiltall, hperm.length_eq]
    constructor
    · refine ⟨"All " ++ toString files.length ++ " files failed to upload. First error: "
        ++ (match (runUploadPhase outcome order).failedFiles.head? with
            | some p => p.2
            | none => "Unknown"), ?_⟩
      unfold uploadBatch
      rw [if_neg hlen0, if_neg hnlt, if_neg (by simp : ¬(false = true))]
      simp only [if_pos hall']
    · unfold uploadBatch
      rw [if_neg hlen0, if_neg hnlt, if_neg (by simp : ¬(false = true))]
      simp only [if_pos hall']
      simp [hnofin]
  · intro hsome
    obtain ⟨f, hfmem, hfnone⟩ := hsome
    have hlt : (runUploadPhase outcome order).failedFiles.length < files.length := by
      rw [hflen, ← hperm.length_eq]
      refine List.length_filter_lt_length_iff_exists.mpr ⟨f, hperm.mem_iff.mpr hfmem, ?_⟩
      simp only [Option.isNone_iff_eq_none] at hfnone
      simp [hfnone]
    have hnefail : ¬ (runUploadPhase outcome order).failedFiles.length = files.length :=
      Nat.ne_of_lt hlt
    refine ⟨?_, hfailed, ?_⟩
    · unfold uploadBatch
      rw [if_neg hlen0, if_neg hnlt, if_neg (by simp : ¬(false = true))]
      simp only [if_neg hnefail]
      cases finalizeResult <;> simp
    · intro hfin
      subst hfin
      unfold uploadBatch
      rw [if_neg hlen0, if_neg hnlt, if_neg (by simp : ¬(false = true))]
      simp only [if_neg hnefail]
  · intro hsome
    obtain ⟨f, hfmem, hfsome⟩ := hsome
    have hne0 : (runUploadPhase outcome order).failedFiles.length ≠ 0 := by
      rw [hflen]
      have : f ∈ order.filter (fun g => (outcome g).isSome) :=
        List.mem_filter.mpr ⟨hfmem, hfsome⟩
      intro hzero
      rw [List.length_eq_zero] at hzero
      rw [hzero] at this
      exact (List.not_mem_nil f) this
    constructor
    · unfold uploaderUpload
      rw [if_neg (by simp : ¬(false = true))]
      simp only [if_pos hne0]
    · unfold uploaderUpload
      rw [if_neg (by simp : ¬(false = true))]
      simp only [if_pos hne0]
      simp [hnofin]

/-- Claim C1 witness: a two-file batch where both fail (failure, no
finalize), and one where only the second file fails (finalize called,
overall success). -/
theorem c1_batch_outcome_witness :
    ((∃ msg, (uploadBatch [⟨"a.txt", 1024⟩, ⟨"b.txt", 1024⟩] false
          (fun _ => some "boom") [⟨"a.txt", 1024⟩, ⟨"b.txt", 1024⟩]
          (.ok "batch-1") (.ok ())).1 = .error (.validationError msg))
      ∧ WorkerCall.finalizeBatch ∉ (uploadBatch [⟨"a.txt", 1024⟩, ⟨"b.txt", 1024⟩] false
          (fun _ => some "boom") [⟨"a.txt", 1024⟩, ⟨"b.txt", 1024⟩]
          (.ok "batch-1") (.ok ())).2)
    ∧ WorkerCall.finalizeBatch ∈ (uploadBatch [⟨"a.txt", 1024⟩, ⟨"b.txt", 1024⟩] false
        (fun f => if f.fileName = "b.txt" then some "boom" else none)
        [⟨"a.txt", 1024⟩, ⟨"b.txt", 1024⟩] (.ok "batch-1") (.ok ())).2
    ∧ (uploadBatch [⟨"a.txt", 1024⟩, ⟨"b.txt", 1024⟩] false
        (fun f => if f.fileName = "b.txt" then some "boom" else none)
        [⟨"a.txt", 1024⟩, ⟨"b.txt", 1024⟩] (.ok "batch-1") (.ok ())).1
      = .ok ⟨"batch-1",
          (runUploadPhase (fun f => if f.fileName = "b.txt" then some "boom" else none)
            [⟨"a.txt", 1024⟩, ⟨"b.txt", 1024⟩]).filesUploaded,
          (runUploadPhase (fun f => if f.fileName = "b.txt" then some "boom" else none)
            [⟨"a.txt", 1024⟩, ⟨"b.txt", 1024⟩]).bytesUploaded⟩
    ∧ (uploaderUpload false
        (fun f => if f.fileName = "b.txt" then some "boom" else none)
        [⟨"a.txt", 1024⟩, ⟨"b.txt", 1024⟩] (.ok "batch-1") (.ok ())).1
      = .error "Some files failed to upload" := by
  have h1 := c1_batch_outcome [⟨"a.txt", 1024⟩, ⟨"b.txt", 1024⟩]
    [⟨"a.txt", 1024⟩, ⟨"b.txt", 1024⟩] (fun _ => some "boom") "batch-1" (.ok ())
    (List.Perm.refl _) (by decide) (by decide)
  have h2 := c1_batch_outcome [⟨"a.txt", 1024⟩, ⟨"b.txt", 1024⟩]
    [⟨"a.txt", 1024⟩, ⟨"b.txt", 1024⟩]
    (fun f => if f.fileName = "b.txt" then some "boom" else none) "batch-1" (.ok ())
    (List.Perm.refl _) (by decide) (by decide)
  exact ⟨h1.1 (by decide),
    (h2.2.1 ⟨⟨"a.txt", 1024⟩, by decide, by decide⟩).1,
    (h2.2.1 ⟨⟨"a.txt", 1024⟩, by decide, by decide⟩).2.2 rfl,
    (h2.2.2 ⟨⟨"b.txt", 1024⟩, by decide, by decide⟩).1⟩

/-- Claim C8 witness: a `ready` session accepts files, a `processing`
session gets the conflict. -/
theorem c8_files_gate_witness :
    postFilesResponse .ready = .accepted ∧ postFilesResponse .processing = .conflict := by
  exact ⟨(c8_files_gate .ready).1.mpr (by decide),
    (c8_files_gate .processing).2.mpr (Or.inl rfl)⟩

/-- Claim C9 witness: concrete empty-scan invocation. -/
theorem c9_empty_scan_witness :
    uploadBatch [] false (fun _ => none) [] (.ok "b") (.ok ())
      = (.error (.validationError "No files found to upload"), []) :=
  c9_empty_scan false (fun _ => none) [] (.ok "b") (.ok ())

/-- Claim C7 witness: the three-2KB-file phase at a concrete input. -/
theorem c7_bytes_uploaded_witness :
    (runUploadPhase (fun _ => none)
        [⟨"a", 2048⟩, ⟨"b", 2048⟩, ⟨"c", 2048⟩]).bytesUploaded
      = sumSizes (([⟨"a", 2048⟩, ⟨"b", 2048⟩, ⟨"c", 2048⟩] : List FileInfo).filter
          (fun f => ((fun _ => none : FileInfo → Option String) f).isNone)) :=
  c7_bytes_uploaded.1 (fun _ => none) [⟨"a", 2048⟩, ⟨"b", 2048⟩, ⟨"c", 2048⟩]
